import Mathlib

/-!
Verification of the browser-side API client in `frontend/src/lib/api.js`
(repository FredMunene/Oncure).

The client is shallowly embedded: JSON values are modelled by an inductive
type, the outcome of the core request helper `fetchAPI` by
`Except String JSON` (a thrown `Error` carries its message string), and each
exported endpoint method by a function mapping the underlying fetch outcome
(and the method's own arguments) to the method's outcome.  Request
construction inside `fetchAPI` is modelled separately by `buildRequest`.
-/

/-- A JSON value, as produced by `response.json()` in the client.
JavaScript `null` (and `undefined`, where it matters for truthiness)
is modelled by `JSON.null`; objects are ordered association lists, matching
JavaScript object literals. -/
inductive JSON where
  | null : JSON
  | bool (b : Bool) : JSON
  | num (n : Int) : JSON
  | str (s : String) : JSON
  | arr (elems : List JSON) : JSON
  | obj (fields : List (String × JSON)) : JSON

/-- Property access `v.k` on a JSON value: `some` field value for an object
that has the key, `none` (JavaScript `undefined`) otherwise. -/
def getField (j : JSON) (k : String) : Option JSON :=
  match j with
  | .obj fields => (fields.find? (fun kv => kv.1 == k)).map (fun kv => kv.2)
  | _ => none

/-- JavaScript truthiness of a JSON value (`!v` is `!jsTruthy v`).
`undefined` is modelled as `JSON.null` before this is applied. -/
def jsTruthy : JSON → Bool
  | .null => false
  | .bool b => b
  | .num n => n != 0
  | .str s => s != ""
  | .arr _ => true
  | .obj _ => true

/-- Object spread `\x7b...j, k: v\x7d`: the fields of `j` with key `k` bound to
`v`, replacing an existing binding in place, appending otherwise. -/
def setFieldList : List (String × JSON) → String → JSON → List (String × JSON)
  | [], k, v => [(k, v)]
  | (k0, v0) :: rest, k, v =>
    if k0 == k then (k, v) :: rest else (k0, v0) :: setFieldList rest k v

/-- Object spread `\x7b...j, k: v\x7d` on a JSON object (the only use in the
source spreads a mock object). -/
def setField (j : JSON) (k : String) (v : JSON) : JSON :=
  match j with
  | .obj fields => .obj (setFieldList fields k v)
  | other => other

/-- Outcome of an awaited `fetchAPI` call: a parsed JSON body on success, or
the message of the thrown `Error` on failure. -/
abbrev FetchResult := Except String JSON

/-- Field lookup on a successful fetch outcome; `none` on failure. -/
def okField (r : FetchResult) (k : String) : Option JSON :=
  match r with
  | .ok v => getField v k
  | .error _ => none

/-- Is `pat` a prefix of the character list? (helper for `strIncludes`). -/
def listPrefixOf : List Char → List Char → Bool
  | [], _ => true
  | _ :: _, [] => false
  | a :: as, b :: bs => a == b && listPrefixOf as bs

/-- Does the character list contain `pat` as a contiguous sublist? -/
def containsSub (pat : List Char) : List Char → Bool
  | [] => listPrefixOf pat []
  | h :: t => listPrefixOf pat (h :: t) || containsSub pat t

/-- JavaScript `s.includes(pat)`: substring containment. -/
def strIncludes (s pat : String) : Bool :=
  containsSub pat.data s.data

/-! ## Request construction in `fetchAPI` (api.js lines 6-23) -/

/-- A request body as the client distinguishes them: a string (the result of
`JSON.stringify`) or a `FormData` instance (file upload). -/
inductive RequestBody where
  | stringBody (s : String) : RequestBody
  | formData : RequestBody

/-- The `options` bag passed to `fetchAPI`: method, optional body, headers. -/
structure RequestOptions where
  method : String := "GET"
  body : Option RequestBody := none
  headers : List (String × String) := []

/-- `options.body instanceof FormData`. -/
def isFormDataBody : Option RequestBody → Bool
  | some .formData => true
  | _ => false

/-- Object spread `\x7b...defaults, ...extra\x7d` on header maps: right-biased
merge (keys of `extra` override keys of `defaults`). -/
def mergeHeaders (defaults extra : List (String × String)) :
    List (String × String) :=
  defaults.filter (fun kv => (extra.find? (fun kv2 => kv2.1 == kv.1)).isNone)
    ++ extra

/-- Header lookup (first binding wins, as in a JavaScript object). -/
def lookupHeader (hs : List (String × String)) (k : String) : Option String :=
  (hs.find? (fun kv => kv.1 == k)).map (fun kv => kv.2)

/-- The request `fetch` receives. -/
structure FetchRequest where
  url : String
  method : String
  credentials : String
  mode : String
  headers : List (String × String)
  body : Option RequestBody

/-- Request construction in `fetchAPI` (api.js lines 6-23): the URL is
`API_URL + endpoint`; `credentials: "include"` and `mode: "cors"` are written
after spreading the caller's options, so they always hold; default headers
are empty for a `FormData` body and `Content-Type: application/json`
otherwise, with the caller's headers spread over the defaults. -/
def buildRequest (apiUrl endpoint : String) (options : RequestOptions) :
    FetchRequest :=
  let isFD := isFormDataBody options.body
  let defaultHeaders : List (String × String) :=
    if isFD then [] else [("Content-Type", "application/json")]
  { url := apiUrl ++ endpoint
    method := options.method
    credentials := "include"
    mode := "cors"
    headers := mergeHeaders defaultHeaders options.headers
    body := options.body }

/-! ## Auth API (api.js lines 74-113) -/

namespace auth

/-- `auth.getSession` (api.js lines 92-102): on failure whose message
contains the substring "No session token provided", return `null`
instead of rethrowing; otherwise rethrow. -/
def getSession (r : FetchResult) : FetchResult :=
  match r with
  | .ok d => .ok d
  | .error e =>
    if strIncludes e "No session token provided" then .ok .null
    else .error e

end auth

/-! ## Posts API (api.js lines 116-215) -/

namespace posts

/-- `posts.getPosts` (api.js lines 117-137): on a bare-array success, wrap it
in a paginated envelope whose `hasMore` is `length === limit`; any other
success passes through; failure propagates. `category` only affects the URL. -/
def getPosts (page limit : Int) (_category : Option String)
    (r : FetchResult) : FetchResult :=
  match r with
  | .ok (.arr xs) =>
    .ok (.obj [("posts", .arr xs), ("page", .num page), ("limit", .num limit),
      ("total", .num xs.length),
      ("hasMore", .bool ((xs.length : Int) == limit))])
  | .ok d => .ok d
  | .error e => .error e

/-- `posts.getLikedPosts` (api.js lines 139-154): same normalization as
`getPosts`. -/
def getLikedPosts (page limit : Int) (r : FetchResult) : FetchResult :=
  match r with
  | .ok (.arr xs) =>
    .ok (.obj [("posts", .arr xs), ("page", .num page), ("limit", .num limit),
      ("total", .num xs.length),
      ("hasMore", .bool ((xs.length : Int) == limit))])
  | .ok d => .ok d
  | .error e => .error e

/-- `posts.getCommentedPosts` (api.js lines 156-171): same normalization as
`getPosts`. -/
def getCommentedPosts (page limit : Int) (r : FetchResult) : FetchResult :=
  match r with
  | .ok (.arr xs) =>
    .ok (.obj [("posts", .arr xs), ("page", .num page), ("limit", .num limit),
      ("total", .num xs.length),
      ("hasMore", .bool ((xs.length : Int) == limit))])
  | .ok d => .ok d
  | .error e => .error e

/-- `posts.getSavedPosts` (api.js lines 173-188): same normalization as
`getPosts`. -/
def getSavedPosts (page limit : Int) (r : FetchResult) : FetchResult :=
  match r with
  | .ok (.arr xs) =>
    .ok (.obj [("posts", .arr xs), ("page", .num page), ("limit", .num limit),
      ("total", .num xs.length),
      ("hasMore", .bool ((xs.length : Int) == limit))])
  | .ok d => .ok d
  | .error e => .error e

/-- `posts.createPost` (api.js lines 190-194): plain delegation to
`fetchAPI`, its outcome is the fetch outcome. -/
def createPost (_postData : JSON) (r : FetchResult) : FetchResult := r

/-- `posts.updatePost` (api.js lines 196-200): plain delegation. -/
def updatePost (_postData : JSON) (r : FetchResult) : FetchResult := r

/-- `posts.deletePost` (api.js lines 202-206): plain delegation. -/
def deletePost (_postId : Int) (r : FetchResult) : FetchResult := r

/-- `posts.getReactions` (api.js line 208): plain delegation. -/
def getReactions (_postId : Int) (r : FetchResult) : FetchResult := r

/-- `posts.addReaction` (api.js lines 210-214): plain delegation. -/
def addReaction (_postId : Int) (_reactionType : String)
    (r : FetchResult) : FetchResult := r

end posts

/-! ## Comments API (api.js lines 218-263) -/

namespace comments

/-- `comments.getPostComments` (api.js lines 219-237): on a bare-array
success, wrap it in an envelope with `comments`, `page`, `limit`, `total`
fields (and no `hasMore` field); any other success passes through; failure
propagates. `postId` and `parentId` only affect the URL. -/
def getPostComments (_postId : Int) (page limit : Int)
    (_parentId : Option Int) (r : FetchResult) : FetchResult :=
  match r with
  | .ok (.arr xs) =>
    .ok (.obj [("comments", .arr xs), ("page", .num page),
      ("limit", .num limit), ("total", .num xs.length)])
  | .ok d => .ok d
  | .error e => .error e

/-- `comments.createComment` (api.js lines 239-243): plain delegation. -/
def createComment (_postId : Int) (_commentData : JSON)
    (r : FetchResult) : FetchResult := r

/-- `comments.updateComment` (api.js lines 245-249): plain delegation. -/
def updateComment (_commentId : Int) (_commentData : JSON)
    (r : FetchResult) : FetchResult := r

/-- `comments.deleteComment` (api.js lines 251-254): plain delegation. -/
def deleteComment (_commentId : Int) (r : FetchResult) : FetchResult := r

/-- `comments.getReactions` (api.js line 256): plain delegation. -/
def getReactions (_commentId : Int) (r : FetchResult) : FetchResult := r

/-- `comments.addReaction` (api.js lines 258-262): plain delegation. -/
def addReaction (_commentId : Int) (_reactionType : String)
    (r : FetchResult) : FetchResult := r

end comments

/-! ## Mock community data (api.js lines 266-358) -/

/-- First mock community (api.js lines 267-275). -/
def mockCommunity1 : JSON :=
  .obj [("id", .num 1), ("title", .str "Cancer Survivors Support"),
    ("category", .str "Support Groups"), ("member_count", .num 1247),
    ("description", .str "A supportive community for cancer survivors sharing experiences and hope."),
    ("created_at", .str "2024-01-15T10:00:00Z"), ("members", .arr [])]

/-- Second mock community (api.js lines 276-284). -/
def mockCommunity2 : JSON :=
  .obj [("id", .num 2), ("title", .str "Nutrition & Wellness"),
    ("category", .str "Health & Wellness"), ("member_count", .num 892),
    ("description", .str "Sharing healthy recipes and wellness tips for cancer patients and survivors."),
    ("created_at", .str "2024-02-01T14:30:00Z"), ("members", .arr [])]

/-- Third mock community (api.js lines 285-293). -/
def mockCommunity3 : JSON :=
  .obj [("id", .num 3), ("title", .str "Caregivers Circle"),
    ("category", .str "Caregivers"), ("member_count", .num 634),
    ("description", .str "Support and resources for family members and caregivers."),
    ("created_at", .str "2024-01-20T09:15:00Z"), ("members", .arr [])]

/-- Fourth mock community (api.js lines 294-302). -/
def mockCommunity4 : JSON :=
  .obj [("id", .num 4), ("title", .str "Mental Health & Mindfulness"),
    ("category", .str "Mental Health"), ("member_count", .num 756),
    ("description", .str "Focusing on mental wellness, meditation, and emotional support."),
    ("created_at", .str "2024-02-10T16:45:00Z"), ("members", .arr [])]

/-- Fifth mock community (api.js lines 303-311). -/
def mockCommunity5 : JSON :=
  .obj [("id", .num 5), ("title", .str "Treatment Updates"),
    ("category", .str "Medical"), ("member_count", .num 423),
    ("description", .str "Latest treatment options and medical breakthroughs discussion."),
    ("created_at", .str "2024-02-15T11:20:00Z"), ("members", .arr [])]

/-- `mockCommunities` (api.js lines 266-312): the fixed fallback list. -/
def mockCommunities : List JSON :=
  [mockCommunity1, mockCommunity2, mockCommunity3, mockCommunity4,
   mockCommunity5]

/-- Seeded mock post for community 1 (api.js lines 317-328). -/
def mockPost101 : JSON :=
  .obj [("id", .num 101),
    ("content", .str "Just wanted to share that I completed my 6-month check-up today and everything looks great! 🎉 To anyone going through treatment right now - there is hope and light at the end of the tunnel."),
    ("author_id", .num 1), ("author_name", .str "Sarah Johnson"),
    ("author_avatar", .null), ("community_id", .num 1),
    ("category", .str "Support"),
    ("created_at", .str "2024-02-20T14:30:00Z"),
    ("likes_count", .num 24), ("comments_count", .num 8)]

/-- Seeded mock post for community 2 (api.js lines 331-342). -/
def mockPost102 : JSON :=
  .obj [("id", .num 102),
    ("content", .str "Found this amazing anti-inflammatory smoothie recipe that's been helping with my energy levels during treatment. Green tea, spinach, pineapple, and ginger - tastes better than it sounds! 🥤"),
    ("author_id", .num 2), ("author_name", .str "Mike Chen"),
    ("author_avatar", .null), ("community_id", .num 2),
    ("category", .str "Nutrition"),
    ("created_at", .str "2024-02-19T10:15:00Z"),
    ("likes_count", .num 18), ("comments_count", .num 5)]

/-- Seeded mock post for community 3 (api.js lines 345-356). -/
def mockPost103 : JSON :=
  .obj [("id", .num 103),
    ("content", .str "As a caregiver, I've learned that taking care of yourself isn't selfish - it's necessary. Remember to take breaks, ask for help, and be kind to yourself. You're doing an amazing job. ❤️"),
    ("author_id", .num 3), ("author_name", .str "Lisa Rodriguez"),
    ("author_avatar", .null), ("community_id", .num 3),
    ("category", .str "Caregiving"),
    ("created_at", .str "2024-02-18T16:45:00Z"),
    ("likes_count", .num 31), ("comments_count", .num 12)]

/-- `mockCommunityPosts` (api.js lines 315-358): posts keyed by community
id (keys 1, 2 and 3 are seeded). -/
def mockCommunityPosts : List (Int × List JSON) :=
  [(1, [mockPost101]), (2, [mockPost102]), (3, [mockPost103])]

/-- `mockCommunityPosts[communityId] || []` (api.js line 489): lookup with
an empty-list default for unseeded ids. -/
def mockPostsFor (communityId : Int) : List JSON :=
  ((mockCommunityPosts.find? (fun kv => kv.1 == communityId)).map
    (fun kv => kv.2)).getD []

/-- JavaScript `parseInt(s)` with no radix argument as the client uses it:
skip leading whitespace, read an optional sign and the longest digit prefix;
`none` models `NaN` (no digits). -/
def parseIntJS (s : String) : Option Int :=
  let cs := s.data.dropWhile Char.isWhitespace
  let signAndRest : Bool × List Char :=
    match cs with
    | '-' :: r => (true, r)
    | '+' :: r => (false, r)
    | r => (false, r)
  let ds := signAndRest.2.takeWhile Char.isDigit
  if ds.isEmpty then none
  else
    let n : Nat := ds.foldl (fun a c => a * 10 + (c.toNat - 48)) 0
    some (if signAndRest.1 then -(n : Int) else (n : Int))

/-! ## Communities API (api.js lines 361-527) -/

namespace communities

/-- `communities.getCommunities` (api.js lines 362-381): normalize a bare
array into an envelope with `communities` and `total`; on any failure return
the mock list instead. -/
def getCommunities (r : FetchResult) : FetchResult :=
  match r with
  | .ok (.arr xs) =>
    .ok (.obj [("communities", .arr xs), ("total", .num xs.length)])
  | .ok d => .ok d
  | .error _ =>
    .ok (.obj [("communities", .arr mockCommunities),
      ("total", .num mockCommunities.length)])

/-- `communities.getAll` (api.js lines 383-397): return the bare array; for
an object success return its `communities` field or `[]`
(`data.communities || []`); on failure return the mock list. -/
def getAll (r : FetchResult) : FetchResult :=
  match r with
  | .ok (.arr xs) => .ok (.arr xs)
  | .ok d =>
    let c := (getField d "communities").getD .null
    .ok (if jsTruthy c then c else .arr [])
  | .error _ => .ok (.arr mockCommunities)

/-- `communities.createCommunity` (api.js lines 399-410): on failure the
original error is replaced by a fixed development-mode error. -/
def createCommunity (_communityData : JSON) (r : FetchResult) : FetchResult :=
  match r with
  | .ok d => .ok d
  | .error _ => .error "Community creation not available in development mode"

/-- `c.id === parseInt(communityId)` (api.js line 417): strict numeric
equality; `NaN` (modelled `none`) matches nothing. -/
def idMatches (communityId : String) (c : JSON) : Bool :=
  match parseIntJS communityId, getField c "id" with
  | some n, some (.num m) => m == n
  | _, _ => false

/-- `communities.getCommunity` (api.js lines 412-426): on failure, if a mock
community's id equals `parseInt(communityId)` return it (spread with
`members: []`), otherwise rethrow the original error. -/
def getCommunity (communityId : String) (r : FetchResult) : FetchResult :=
  match r with
  | .ok d => .ok d
  | .error e =>
    match mockCommunities.find? (idMatches communityId) with
    | some m => .ok (setField m "members" (.arr []))
    | none => .error e

/-- `communities.updateCommunity` (api.js lines 428-432): plain delegation. -/
def updateCommunity (_communityId : Int) (_communityData : JSON)
    (r : FetchResult) : FetchResult := r

/-- `communities.deleteCommunity` (api.js lines 434-437): plain delegation. -/
def deleteCommunity (_communityId : Int) (r : FetchResult) : FetchResult := r

/-- `communities.joinCommunity` (api.js lines 439-450): on any failure
return a fabricated success object instead. -/
def joinCommunity (_communityId : Int) (_invitedBy : Option Int)
    (r : FetchResult) : FetchResult :=
  match r with
  | .ok d => .ok d
  | .error _ =>
    .ok (.obj [("success", .bool true),
      ("message", .str "Successfully joined community")])

/-- `communities.leaveCommunity` (api.js lines 452-455): plain delegation. -/
def leaveCommunity (_communityId : Int) (r : FetchResult) : FetchResult := r

/-- `communities.inviteToCommunity` (api.js lines 457-461): plain
delegation. -/
def inviteToCommunity (_communityId _userId : Int)
    (r : FetchResult) : FetchResult := r

/-- `communities.updateMember` (api.js lines 463-467): plain delegation. -/
def updateMember (_communityId _userId : Int) (_status : String)
    (r : FetchResult) : FetchResult := r

/-- `communities.removeMember` (api.js lines 469-472): plain delegation. -/
def removeMember (_communityId _userId : Int)
    (r : FetchResult) : FetchResult := r

/-- `communities.getPosts` (api.js lines 474-498): normalize a bare array
into an envelope with `posts`, `page`, `limit`, `total` (no `hasMore`); on
any failure return the seeded mock posts for the community (empty when
unseeded) in the same envelope shape. -/
def getPosts (communityId : Int) (page limit : Int)
    (r : FetchResult) : FetchResult :=
  match r with
  | .ok (.arr xs) =>
    .ok (.obj [("posts", .arr xs), ("page", .num page),
      ("limit", .num limit), ("total", .num xs.length)])
  | .ok d => .ok d
  | .error _ =>
    let posts := mockPostsFor communityId
    .ok (.obj [("posts", .arr posts), ("page", .num page),
      ("limit", .num limit), ("total", .num posts.length)])

/-- `communities.createPost` (api.js lines 500-504): plain delegation. -/
def createPost (_communityId : Int) (_postData : JSON)
    (r : FetchResult) : FetchResult := r

/-- `communities.getEvents` (api.js lines 506-514): on any failure return an
empty events array instead. -/
def getEvents (_communityId : Int) (r : FetchResult) : FetchResult :=
  match r with
  | .ok d => .ok d
  | .error _ => .ok (.arr [])

/-- `communities.createEvent` (api.js lines 516-520): plain delegation. -/
def createEvent (_communityId : Int) (_eventData : JSON)
    (r : FetchResult) : FetchResult := r

/-- `communities.respondToEvent` (api.js lines 522-526): plain delegation. -/
def respondToEvent (_eventId : Int) (_response : JSON)
    (r : FetchResult) : FetchResult := r

end communities

/-! ## Users API (api.js lines 530-615) -/

namespace users

/-- `users.getFollowers` (api.js lines 567-570, the later duplicate key
wins): plain delegation. -/
def getFollowers (_userID : Option Int) (r : FetchResult) : FetchResult := r

/-- `users.getProfile` (api.js lines 534-537): plain delegation. -/
def getProfile (_userId : Option Int) (r : FetchResult) : FetchResult := r

/-- `users.updateProfile` (api.js lines 539-543): plain delegation. -/
def updateProfile (_profileData : JSON) (r : FetchResult) : FetchResult := r

/-- `users.updatePrivacy` (api.js lines 545-549): plain delegation. -/
def updatePrivacy (_isPublic : Bool) (r : FetchResult) : FetchResult := r

/-- `users.changePassword` (api.js lines 551-558): plain delegation. -/
def changePassword (_currentPassword _newPassword : String)
    (r : FetchResult) : FetchResult := r

/-- `users.deleteAccount` (api.js lines 560-564): plain delegation. -/
def deleteAccount (_password : String) (r : FetchResult) : FetchResult := r

/-- `users.getFollowing` (api.js lines 572-575): plain delegation. -/
def getFollowing (_userID : Option Int) (r : FetchResult) : FetchResult := r

/-- `users.getFollowCounts` (api.js lines 577-580): plain delegation. -/
def getFollowCounts (_userID : Option Int) (r : FetchResult) : FetchResult := r

/-- `users.getFollowStatus` (api.js lines 582-583): plain delegation. -/
def getFollowStatus (_userID : Int) (r : FetchResult) : FetchResult := r

/-- `users.followUser` (api.js lines 585-588): plain delegation. -/
def followUser (_userID : Int) (r : FetchResult) : FetchResult := r

/-- `users.unfollowUser` (api.js lines 590-593): plain delegation. -/
def unfollowUser (_userID : Int) (r : FetchResult) : FetchResult := r

/-- `users.cancelFollowRequest` (api.js lines 595-598): plain delegation. -/
def cancelFollowRequest (_userID : Int) (r : FetchResult) : FetchResult := r

/-- `users.acceptFollowRequest` (api.js lines 600-603): plain delegation. -/
def acceptFollowRequest (_userID : Int) (r : FetchResult) : FetchResult := r

/-- `users.getSuggestedUsers` (api.js line 605): plain delegation. -/
def getSuggestedUsers (r : FetchResult) : FetchResult := r

/-- `users.getOnlineUsers` (api.js line 607): plain delegation. -/
def getOnlineUsers (r : FetchResult) : FetchResult := r

/-- `users.getAllUsers` (api.js line 609): plain delegation. -/
def getAllUsers (r : FetchResult) : FetchResult := r

/-- `users.acceptMessageRequest` (api.js lines 611-614): plain delegation. -/
def acceptMessageRequest (_requesterId : Int)
    (r : FetchResult) : FetchResult := r

end users

/-! ## Messages API (api.js lines 617-652) -/

namespace messages

/-- `messages.getConversations` (api.js line 618): plain delegation. -/
def getConversations (r : FetchResult) : FetchResult := r

/-- `messages.getMessages` (api.js lines 620-621): plain delegation. -/
def getMessages (_userId _page _limit : Int)
    (r : FetchResult) : FetchResult := r

/-- `messages.sendMessage` (api.js lines 623-626): plain delegation. -/
def sendMessage (_userId : Int) (_content : String)
    (r : FetchResult) : FetchResult := r

/-- `messages.markAsRead` (api.js lines 628-640): logs, then returns the
result on success and rethrows the same error on failure. -/
def markAsRead (_userId : Int) (r : FetchResult) : FetchResult :=
  match r with
  | .ok result => .ok result
  | .error e => .error e

/-- `messages.getUnreadCount` (api.js line 642): plain delegation. -/
def getUnreadCount (r : FetchResult) : FetchResult := r

/-- `messages.getCommunityMessages` (api.js lines 645-646): plain
delegation. -/
def getCommunityMessages (_communityId _page _limit : Int)
    (r : FetchResult) : FetchResult := r

/-- `messages.sendCommunityMessage` (api.js lines 648-651): plain
delegation. -/
def sendCommunityMessage (_communityId : Int) (_content : String)
    (r : FetchResult) : FetchResult := r

end messages

/-! ## Notifications API (api.js lines 655-672) -/

namespace notifications

/-- `notifications.getNotifications` (api.js lines 656-659): plain
delegation. -/
def getNotifications (_page _limit : Int) (r : FetchResult) : FetchResult := r

/-- `notifications.markAsRead` (api.js lines 661-664): plain delegation. -/
def markAsRead (_notificationId : Int) (r : FetchResult) : FetchResult := r

/-- `notifications.markAllAsRead` (api.js lines 666-669): plain
delegation. -/
def markAllAsRead (r : FetchResult) : FetchResult := r

/-- `notifications.getUnreadCount` (api.js line 671): plain delegation. -/
def getUnreadCount (r : FetchResult) : FetchResult := r

end notifications

/-! ## Activity API (api.js lines 675-719) -/

namespace activity

/-- `activity.getUserActivities` (api.js lines 676-689): the params only
shape the query string; plain delegation. -/
def getUserActivities (_userID : Option Int) (_params : JSON)
    (r : FetchResult) : FetchResult := r

/-- `activity.getUserPosts` (api.js lines 691-700): plain delegation. -/
def getUserPosts (_userID : Option Int) (_params : JSON)
    (r : FetchResult) : FetchResult := r

/-- `activity.hideActivity` (api.js lines 702-705): plain delegation. -/
def hideActivity (_activityID : Int) (r : FetchResult) : FetchResult := r

/-- `activity.unhideActivity` (api.js lines 707-710): plain delegation. -/
def unhideActivity (_activityID : Int) (r : FetchResult) : FetchResult := r

/-- `activity.getActivitySettings` (api.js line 712): plain delegation. -/
def getActivitySettings (r : FetchResult) : FetchResult := r

/-- `activity.updateActivitySettings` (api.js lines 714-718): plain
delegation. -/
def updateActivitySettings (_settings : JSON)
    (r : FetchResult) : FetchResult := r

end activity

/-! ## Upload API (api.js lines 722-745) -/

namespace upload

/-- `upload.uploadFile` (api.js lines 723-744): on success, fail with
"Invalid response from server" when `!response || !response.url`
(the response or its `url` field is falsy or absent); the catch block logs
and rethrows, so every failure surfaces unchanged. -/
def uploadFile (r : FetchResult) : FetchResult :=
  match r with
  | .error e => .error e
  | .ok response =>
    if !(jsTruthy response) || !(jsTruthy ((getField response "url").getD .null))
    then .error "Invalid response from server"
    else .ok response

end upload

/-! ## WebSocket helper `connectWebSocket` (api.js lines 748-773) -/

/-- An observable effect of a WebSocket event handler installed by
`connectWebSocket`; the handler type `H` is abstract. `invokeHandler` is a
call of the caller-supplied `onMessage`; `closeConnection` closes the
socket; `scheduleReconnect` is a `setTimeout` of `connectWebSocket h`
after `delayMs` milliseconds. -/
inductive WSEvent (H : Type) where
  | invokeHandler (h : H) (msg : JSON) : WSEvent H
  | closeConnection : WSEvent H
  | scheduleReconnect (delayMs : Nat) (h : H) : WSEvent H

/-- Does an effect close the connection? -/
def WSEvent.isClose {H : Type} : WSEvent H → Bool
  | .closeConnection => true
  | _ => false

/-- The connection state `connectWebSocket` returns: the stored handler and
the effects each installed event handler produces. `onmessageEffects` takes
the outcome of `JSON.parse(event.data)` (`none` on a parse failure). -/
structure WSConnection (H : Type) where
  handler : H
  onmessageEffects : Option JSON → List (WSEvent H)
  oncloseEffects : List (WSEvent H)

/-- `ws://` when the page protocol is not `https:`, else `wss://`
(api.js line 749). -/
def wsProtocol (pageProtocol : String) : String :=
  if pageProtocol == "https:" then "wss:" else "ws:"

/-- `connectWebSocket` (api.js lines 748-773): `onmessage` parses the
payload and calls `onMessage` with the parsed value, swallowing parse
failures (logged only); `onclose` schedules one reconnection with the same
handler after 5000 ms; `onerror` does nothing. -/
def connectWebSocket (H : Type) (onMessage : H) : WSConnection H :=
  { handler := onMessage
    onmessageEffects := fun parsed =>
      match parsed with
      | some d => [.invokeHandler onMessage d]
      | none => []
    oncloseEffects := [.scheduleReconnect 5000 onMessage] }

/-! ## Theorems -/

/-- Claim C2, counterexample: `auth.getSession` also suppresses a failure
whose message merely contains "No session token provided" as a proper
substring, because the source tests `error.message.includes(...)`; the claim
says only the exact message is suppressed. -/
theorem getSession_swallows_substring_match :
    auth.getSession (.error "Error: No session token provided for request")
      = .ok .null ∧
    "Error: No session token provided for request"
      ≠ "No session token provided" := by
  exact ⟨rfl, by decide⟩

/-- Claim C2 (amended): `auth.getSession` returns `null` instead of failing
exactly when the failure message contains the substring
"No session token provided"; a failure whose message does not contain that
substring propagates, and a success passes through. -/
theorem getSession_suppression_characterization :
    ∀ e : String,
      (strIncludes e "No session token provided" = true →
        auth.getSession (.error e) = .ok .null) ∧
      (strIncludes e "No session token provided" = false →
        auth.getSession (.error e) = .error e) ∧
      (∀ d : JSON, auth.getSession (.ok d) = .ok d) := by
  intro e
  refine ⟨fun h => ?_, fun h => ?_, fun d => rfl⟩ <;>
    simp [auth.getSession, h]

/-- Claim C2 witness: the characterization applied to the exact message and
to an unrelated message. -/
theorem getSession_suppression_characterization_witness :
    auth.getSession (.error "No session token provided") = .ok .null ∧
    auth.getSession (.error "server exploded") = .error "server exploded" :=
  ⟨(getSession_suppression_characterization "No session token provided").1
      rfl,
   (getSession_suppression_characterization "server exploded").2.1 rfl⟩

/-- Claim C6: `communities.getCommunities` on any failure returns the fixed
mock list, which has exactly 5 entries, with `total == 5`. -/
theorem getCommunities_mock_fallback :
    mockCommunities.length = 5 ∧
    ∀ e : String,
      communities.getCommunities (.error e)
        = .ok (.obj [("communities", .arr mockCommunities),
            ("total", .num 5)]) :=
  ⟨rfl, fun _ => rfl⟩

/-- Claim C9: `communities.joinCommunity` never fails: every failure of the
underlying request is replaced by the fabricated success object, and a
success passes through, so no failure ever reaches the caller. -/
theorem joinCommunity_fabricated_success :
    ∀ (cid : Int) (invitedBy : Option Int) (e : String) (d : JSON),
      communities.joinCommunity cid invitedBy (.error e)
        = .ok (.obj [("success", .bool true),
            ("message", .str "Successfully joined community")]) ∧
      communities.joinCommunity cid invitedBy (.ok d) = .ok d :=
  fun _ _ _ _ => ⟨rfl, rfl⟩

/-- Claim C8: `upload.uploadFile` fails with "Invalid response from server"
whenever the request succeeds but the response has no `url` field, and every
failure of the underlying request surfaces unchanged (never suppressed or
replaced by mock data). -/
theorem uploadFile_invalid_response :
    (∀ v : JSON, getField v "url" = none →
      upload.uploadFile (.ok v) = .error "Invalid response from server") ∧
    (∀ e : String, upload.uploadFile (.error e) = .error e) := by
  refine ⟨fun v h => ?_, fun e => rfl⟩
  simp [upload.uploadFile, h, jsTruthy]

/-- Claim C8 witness: an empty-object success yields the invalid-response
error, and a transport failure surfaces unchanged. -/
theorem uploadFile_invalid_response_witness :
    upload.uploadFile (.ok (.obj []))
      = .error "Invalid response from server" ∧
    upload.uploadFile (.error "network down") = .error "network down" :=
  ⟨uploadFile_invalid_response.1 (.obj []) rfl,
   uploadFile_invalid_response.2 "network down"⟩

/-- Claim C5: a close event produces exactly one scheduled reconnection,
after 5000 ms, carrying the same message handler; the message handler calls
the caller's handler on a successfully parsed payload and produces no effect
at all on a parse failure, so no message-handling path ever closes the
connection. -/
theorem connectWebSocket_reconnect_and_parse_safety :
    ∀ (H : Type) (h : H),
      (connectWebSocket H h).oncloseEffects = [.scheduleReconnect 5000 h] ∧
      (connectWebSocket H h).onmessageEffects none = [] ∧
      (∀ d : JSON,
        (connectWebSocket H h).onmessageEffects (some d)
          = [.invokeHandler h d]) ∧
      (∀ parsed : Option JSON,
        ((connectWebSocket H h).onmessageEffects parsed).any
          WSEvent.isClose = false) :=
  fun H h =>
    ⟨rfl, rfl, fun _ => rfl, fun parsed => by
      cases parsed <;> rfl⟩

/-- Claim C1, counterexample: `comments.getPostComments` given a bare array
of length 1 with requested limit 1 returns an envelope with `total == 1`
but no `hasMore` field at all, so the envelope does not have
`hasMore == (L == M)`. -/
theorem getPostComments_envelope_lacks_hasMore :
    comments.getPostComments 1 1 1 none (.ok (.arr [JSON.null]))
      = .ok (.obj [("comments", .arr [JSON.null]), ("page", .num 1),
          ("limit", .num 1), ("total", .num 1)]) ∧
    okField (comments.getPostComments 1 1 1 none (.ok (.arr [JSON.null])))
      "hasMore" = none ∧
    okField (comments.getPostComments 1 1 1 none (.ok (.arr [JSON.null])))
      "total" = some (.num 1) :=
  ⟨rfl, rfl, rfl⟩

/-- Claim C1 (amended): for `posts.getPosts`, `posts.getLikedPosts`,
`posts.getCommentedPosts` and `posts.getSavedPosts`, a bare-array success of
length L with requested limit M yields an envelope with `total == L` and
`hasMore == (L == M)`; `comments.getPostComments` and `communities.getPosts`
yield an envelope with `total == L` and no `hasMore` field. -/
theorem list_normalization_total_hasMore :
    ∀ (xs : List JSON) (page limit : Int) (category : Option String)
      (postId : Int) (parentId : Option Int) (communityId : Int),
      okField (posts.getPosts page limit category (.ok (.arr xs))) "total"
        = some (.num xs.length) ∧
      okField (posts.getPosts page limit category (.ok (.arr xs))) "hasMore"
        = some (.bool ((xs.length : Int) == limit)) ∧
      okField (posts.getLikedPosts page limit (.ok (.arr xs))) "total"
        = some (.num xs.length) ∧
      okField (posts.getLikedPosts page limit (.ok (.arr xs))) "hasMore"
        = some (.bool ((xs.length : Int) == limit)) ∧
      okField (posts.getCommentedPosts page limit (.ok (.arr xs))) "total"
        = some (.num xs.length) ∧
      okField (posts.getCommentedPosts page limit (.ok (.arr xs))) "hasMore"
        = some (.bool ((xs.length : Int) == limit)) ∧
      okField (posts.getSavedPosts page limit (.ok (.arr xs))) "total"
        = some (.num xs.length) ∧
      okField (posts.getSavedPosts page limit (.ok (.arr xs))) "hasMore"
        = some (.bool ((xs.length : Int) == limit)) ∧
      okField (comments.getPostComments postId page limit parentId
          (.ok (.arr xs))) "total" = some (.num xs.length) ∧
      okField (comments.getPostComments postId page limit parentId
          (.ok (.arr xs))) "hasMore" = none ∧
      okField (communities.getPosts communityId page limit (.ok (.arr xs)))
        "total" = some (.num xs.length) ∧
      okField (communities.getPosts communityId page limit (.ok (.arr xs)))
        "hasMore" = none :=
  fun _ _ _ _ _ _ _ =>
    ⟨rfl, rfl, rfl, rfl, rfl, rfl, rfl, rfl, rfl, rfl, rfl, rfl⟩

/-- Claim C7: `communities.getPosts` on any failure returns, for community
id 1, exactly the single seeded mock post with `total == 1`; and for any
community id with no seeded mock posts, an empty posts list with
`total == 0` — in both cases a success, never a failure. -/
theorem communities_getPosts_mock_fallback :
    ∀ (e : String) (page limit : Int),
      communities.getPosts 1 page limit (.error e)
        = .ok (.obj [("posts", .arr [mockPost101]), ("page", .num page),
            ("limit", .num limit), ("total", .num 1)]) ∧
      ∀ cid : Int, mockPostsFor cid = [] →
        communities.getPosts cid page limit (.error e)
          = .ok (.obj [("posts", .arr []), ("page", .num page),
              ("limit", .num limit), ("total", .num 0)]) := by
  intro e page limit
  refine ⟨rfl, fun cid h => ?_⟩
  simp [communities.getPosts, h]

/-- Claim C7 witness: the fallback evaluated at community 1 and at the
unseeded community 42. -/
theorem communities_getPosts_mock_fallback_witness :
    communities.getPosts 1 2 10 (.error "boom")
      = .ok (.obj [("posts", .arr [mockPost101]), ("page", .num 2),
          ("limit", .num 10), ("total", .num 1)]) ∧
    communities.getPosts 42 2 10 (.error "boom")
      = .ok (.obj [("posts", .arr []), ("page", .num 2),
          ("limit", .num 10), ("total", .num 0)]) :=
  ⟨(communities_getPosts_mock_fallback "boom" 2 10).1,
   (communities_getPosts_mock_fallback "boom" 2 10).2 42 rfl⟩

/-- Claim C10: `communities.getCommunity` on failure falls back to mock data
only partially: when `parseInt(communityId)` matches the id of a seeded mock
community (so the string "1" matches community 1), that mock record is
returned with an empty `members` array; when no mock id matches, the
original failure is rethrown. -/
theorem getCommunity_partial_fallback :
    ∀ (cid : String) (e : String),
      (∀ m : JSON, mockCommunities.find? (communities.idMatches cid) = some m →
        communities.getCommunity cid (.error e)
          = .ok (setField m "members" (.arr []))) ∧
      (mockCommunities.find? (communities.idMatches cid) = none →
        communities.getCommunity cid (.error e) = .error e) := by
  intro cid e
  refine ⟨fun m h => ?_, fun h => ?_⟩ <;>
    simp [communities.getCommunity, h]

/-- Claim C10 witness: the string "1" numerically matches mock community 1
and yields that record (whose `members` array is empty), while a
non-numeric id rethrows the original failure. -/
theorem getCommunity_partial_fallback_witness :
    communities.getCommunity "1" (.error "boom") = .ok mockCommunity1 ∧
    communities.getCommunity "no-such-id" (.error "boom")
      = .error "boom" :=
  ⟨(getCommunity_partial_fallback "1" "boom").1 mockCommunity1 rfl,
   (getCommunity_partial_fallback "no-such-id" "boom").2 rfl⟩

/-- Claim C3: every request built by the core helper carries
`credentials: "include"` and `mode: "cors"` whatever the caller's options,
and targets `baseURL + path`; when the body is not FormData the client sets
`Content-Type: application/json` (visible whenever the caller does not
supply that header themselves); when the body is FormData the client forces
no Content-Type: the final Content-Type is exactly whatever the caller
supplied. -/
theorem fetchAPI_request_construction :
    ∀ (apiUrl endpoint : String) (options : RequestOptions),
      (buildRequest apiUrl endpoint options).credentials = "include" ∧
      (buildRequest apiUrl endpoint options).mode = "cors" ∧
      (buildRequest apiUrl endpoint options).url = apiUrl ++ endpoint ∧
      (isFormDataBody options.body = false →
        lookupHeader options.headers "Content-Type" = none →
        lookupHeader (buildRequest apiUrl endpoint options).headers
          "Content-Type" = some "application/json") ∧
      (isFormDataBody options.body = true →
        lookupHeader (buildRequest apiUrl endpoint options).headers
          "Content-Type" = lookupHeader options.headers "Content-Type") := by
  intro apiUrl endpoint options
  refine ⟨rfl, rfl, rfl, fun hfd hct => ?_, fun hfd => ?_⟩
  · have h0 : options.headers.find? (fun kv2 => kv2.1 == "Content-Type")
        = none := by
      simpa [lookupHeader] using hct
    simp [buildRequest, mergeHeaders, lookupHeader, hfd, h0]
  · simp [buildRequest, mergeHeaders, lookupHeader, hfd]

/-- Concrete options of a JSON-body POST (as `posts.createPost` sends). -/
def jsonPostOptions : RequestOptions :=
  { method := "POST", body := some (.stringBody "{}"), headers := [] }

/-- Concrete options of the file-upload POST (`upload.uploadFile`). -/
def formDataOptions : RequestOptions :=
  { method := "POST", body := some .formData, headers := [] }

/-- Claim C3 witness: a JSON-body request with no caller headers gets the
JSON content type, a FormData-body request gets none, and credentials are
included. -/
theorem fetchAPI_request_construction_witness :
    lookupHeader (buildRequest "http://localhost:8080" "/api/posts"
      jsonPostOptions).headers "Content-Type" = some "application/json" ∧
    lookupHeader (buildRequest "http://localhost:8080" "/api/upload"
      formDataOptions).headers "Content-Type" = none ∧
    (buildRequest "http://localhost:8080" "/api/posts"
      jsonPostOptions).credentials = "include" := by
  have h1 := fetchAPI_request_construction "http://localhost:8080"
    "/api/posts" jsonPostOptions
  have h2 := fetchAPI_request_construction "http://localhost:8080"
    "/api/upload" formDataOptions
  refine ⟨h1.2.2.2.1 rfl rfl, ?_, h1.1⟩
  rw [h2.2.2.2.2 rfl]
  rfl

/-- Claim C4: mock-data fallback on failure is applied only by the
community-read operations (list/get communities, list community posts, list
events, join), shown positively below; every operation of the posts,
comments, messages, users, notifications and activity groups propagates the
underlying failure unchanged, and even the community write operations never
substitute mock data (`createCommunity` still fails, with a replaced
message; the rest propagate unchanged). -/
theorem mock_fallback_only_community_reads :
    ∀ (e s : String) (j : JSON) (n m page limit : Int) (os : Option Int)
      (oc : Option String) (b : Bool),
      posts.getPosts page limit oc (.error e) = .error e ∧
      posts.getLikedPosts page limit (.error e) = .error e ∧
      posts.getCommentedPosts page limit (.error e) = .error e ∧
      posts.getSavedPosts page limit (.error e) = .error e ∧
      posts.createPost j (.error e) = .error e ∧
      posts.updatePost j (.error e) = .error e ∧
      posts.deletePost n (.error e) = .error e ∧
      posts.getReactions n (.error e) = .error e ∧
      posts.addReaction n s (.error e) = .error e ∧
      comments.getPostComments n page limit os (.error e) = .error e ∧
      comments.createComment n j (.error e) = .error e ∧
      comments.updateComment n j (.error e) = .error e ∧
      comments.deleteComment n (.error e) = .error e ∧
      comments.getReactions n (.error e) = .error e ∧
      comments.addReaction n s (.error e) = .error e ∧
      messages.getConversations (.error e) = .error e ∧
      messages.getMessages n page limit (.error e) = .error e ∧
      messages.sendMessage n s (.error e) = .error e ∧
      messages.markAsRead n (.error e) = .error e ∧
      messages.getUnreadCount (.error e) = .error e ∧
      messages.getCommunityMessages n page limit (.error e) = .error e ∧
      messages.sendCommunityMessage n s (.error e) = .error e ∧
      users.getFollowers os (.error e) = .error e ∧
      users.getProfile os (.error e) = .error e ∧
      users.updateProfile j (.error e) = .error e ∧
      users.updatePrivacy b (.error e) = .error e ∧
      users.changePassword s s (.error e) = .error e ∧
      users.deleteAccount s (.error e) = .error e ∧
      users.getFollowing os (.error e) = .error e ∧
      users.getFollowCounts os (.error e) = .error e ∧
      users.getFollowStatus n (.error e) = .error e ∧
      users.followUser n (.error e) = .error e ∧
      users.unfollowUser n (.error e) = .error e ∧
      users.cancelFollowRequest n (.error e) = .error e ∧
      users.acceptFollowRequest n (.error e) = .error e ∧
      users.getSuggestedUsers (.error e) = .error e ∧
      users.getOnlineUsers (.error e) = .error e ∧
      users.getAllUsers (.error e) = .error e ∧
      users.acceptMessageRequest n (.error e) = .error e ∧
      notifications.getNotifications page limit (.error e) = .error e ∧
      notifications.markAsRead n (.error e) = .error e ∧
      notifications.markAllAsRead (.error e) = .error e ∧
      notifications.getUnreadCount (.error e) = .error e ∧
      activity.getUserActivities os j (.error e) = .error e ∧
      activity.getUserPosts os j (.error e) = .error e ∧
      activity.hideActivity n (.error e) = .error e ∧
      activity.unhideActivity n (.error e) = .error e ∧
      activity.getActivitySettings (.error e) = .error e ∧
      activity.updateActivitySettings j (.error e) = .error e ∧
      communities.getCommunities (.error e)
        = .ok (.obj [("communities", .arr mockCommunities),
            ("total", .num 5)]) ∧
      communities.getAll (.error e) = .ok (.arr mockCommunities) ∧
      communities.getCommunity "1" (.error e) = .ok mockCommunity1 ∧
      communities.joinCommunity n os (.error e)
        = .ok (.obj [("success", .bool true),
            ("message", .str "Successfully joined community")]) ∧
      communities.getPosts n page limit (.error e)
        = .ok (.obj [("posts", .arr (mockPostsFor n)), ("page", .num page),
            ("limit", .num limit),
            ("total", .num (mockPostsFor n).length)]) ∧
      communities.getEvents n (.error e) = .ok (.arr []) ∧
      communities.createCommunity j (.error e)
        = .error "Community creation not available in development mode" ∧
      communities.updateCommunity n j (.error e) = .error e ∧
      communities.deleteCommunity n (.error e) = .error e ∧
      communities.leaveCommunity n (.error e) = .error e ∧
      communities.inviteToCommunity n m (.error e) = .error e ∧
      communities.updateMember n m s (.error e) = .error e ∧
      communities.removeMember n m (.error e) = .error e ∧
      communities.createPost n j (.error e) = .error e ∧
      communities.createEvent n j (.error e) = .error e ∧
      communities.respondToEvent n j (.error e) = .error e :=
  fun _ _ _ _ _ _ _ _ _ _ =>
    ⟨rfl, rfl, rfl, rfl, rfl, rfl, rfl, rfl, rfl, rfl, rfl, rfl, rfl, rfl,
     rfl, rfl, rfl, rfl, rfl, rfl, rfl, rfl, rfl, rfl, rfl, rfl, rfl, rfl,
     rfl, rfl, rfl, rfl, rfl, rfl, rfl, rfl, rfl, rfl, rfl, rfl, rfl, rfl,
     rfl, rfl, rfl, rfl, rfl, rfl, rfl, rfl, rfl, rfl, rfl, rfl, rfl, rfl,
     rfl, rfl, rfl, rfl, rfl, rfl, rfl, rfl, rfl⟩
